import Mathlib

/-!
Shallow embedding of `src/main.py` (FastAPI auth system, variant 2):
user store over a CSV table, in-memory session table with TTL and
sliding expiry, route-guard middleware, and the HTTP handlers for
login, registration, logout, the admin panel and the JSON APIs.

Time is modelled as `Nat` seconds. The password hash (`hashlib.sha256`
hexdigest) is modelled as an explicit function parameter `hash`:
every theorem below holds for an arbitrary digest function.
-/

namespace FastAPIApp

/-- Python `str.startswith`, on the character sequence of the string. -/
def pyStartswith (s pre : String) : Bool := pre.data.isPrefixOf s.data

/-- Python `str.strip()`: remove leading and trailing whitespace. -/
def pyStrip (s : String) : String :=
  ⟨((s.data.dropWhile Char.isWhitespace).reverse.dropWhile
      Char.isWhitespace).reverse⟩

/-- Value of `Config.ADMIN_LOGIN` in src/main.py. -/
def ADMIN_LOGIN : String := "admin"

/-- Value of `Config.ADMIN_PASSWORD` in src/main.py. -/
def ADMIN_PASSWORD : String := "12345"

/-- Value of `Config.SESSION_TTL = timedelta(minutes=30)`, in seconds. -/
def SESSION_TTL : Nat := 30 * 60

/-- Value of `Config.WHITE_URLS`, the unauthenticated allow-list. -/
def WHITE_URLS : List String := ["/", "/login", "/logout", "/register"]

/-- Row of the `users.csv` table: username, password digest, role,
creation timestamp. -/
structure UserRec where
  username : String
  password : String
  role : String
  created_at : Nat
deriving Repr, DecidableEq

/-- The user table, in insertion order (as read by `get_all_users`). -/
abbrev UserTable := List UserRec

/-- Embedding of `UserService.get_user`: first row whose `username`
column equals the argument, `None` when the selection is empty. -/
def get_user (users : UserTable) (username : String) : Option UserRec :=
  users.find? (fun u => u.username == username)

/-- Embedding of the membership test
`username in users["username"].values` used by `create_user` and
`_ensure_admin_user`. -/
def userExists (users : UserTable) (username : String) : Bool :=
  users.any (fun u => u.username == username)

/-- Embedding of `UserService.create_user`: rejects a present username,
otherwise appends a row with the hashed password and persists. Returns
the success flag together with the resulting table. -/
def create_user (hash : String → String) (users : UserTable)
    (username password role : String) (now : Nat) : Bool × UserTable :=
  if userExists users username then (false, users)
  else (true, users ++ [⟨username, hash password, role, now⟩])

/-- Embedding of `UserService.verify_user`: `get_user`, then compare the
stored digest with the hash of the supplied password; absent user gives
`false`. -/
def verify_user (hash : String → String) (users : UserTable)
    (username password : String) : Bool :=
  match get_user users username with
  | none => false
  | some u => u.password == hash password

/-- Embedding of `UserService.get_users_count`. -/
def get_users_count (users : UserTable) : Nat := users.length

/-- Embedding of `UserService._ensure_admin_user` acting on an already
existing table: if the admin username is absent, append the admin row
with the hashed well-known password and role `admin`. -/
def ensure_admin_user (hash : String → String) (users : UserTable)
    (now : Nat) : UserTable :=
  if userExists users ADMIN_LOGIN then users
  else users ++ [⟨ADMIN_LOGIN, hash ADMIN_PASSWORD, "admin", now⟩]

/-- Row of `logs.csv`: timestamp (modelled as the `Nat` instant at which
`write_log` ran), level, event, username, extra. -/
structure LogEntry where
  timestamp : Nat
  level : String
  event : String
  username : String
  extra : String
deriving Repr, DecidableEq

/-- The log file body, append-ordered (chronological). -/
abbrev LogStore := List LogEntry

/-- Embedding of `UserService.write_log`: append one row. -/
def write_log (logs : LogStore) (now : Nat)
    (level event username extra : String) : LogStore :=
  logs ++ [⟨now, level, event, username, extra⟩]

/-- Embedding of `UserService.get_recent_logs`:
`logs_df.tail(limit).to_dict('records')`, i.e. the last `limit` rows in
file order. -/
def get_recent_logs (logs : LogStore) (limit : Nat) : LogStore :=
  logs.drop (logs.length - limit)

/-- Value stored in the session dict: creation / last-touch time and the
username. -/
structure SessionRec where
  created : Nat
  username : String
deriving Repr, DecidableEq

/-- The in-memory session dict `SessionManager.sessions`, modelled as an
association list with at most one entry per key. -/
abbrev Sessions := List (String × SessionRec)

/-- Dict lookup `self.sessions[session_id]` (with the `in` test). -/
def sessionsLookup (s : Sessions) (sid : String) : Option SessionRec :=
  (s.find? (fun p => p.1 == sid)).map Prod.snd

/-- Dict deletion `del self.sessions[session_id]`. -/
def sessionsErase (s : Sessions) (sid : String) : Sessions :=
  s.filter (fun p => p.1 != sid)

/-- Dict assignment `self.sessions[session_id] = record`: replace the
entry when the key is present, append otherwise. -/
def sessionsSet : Sessions → String → SessionRec → Sessions
  | [], sid, r => [(sid, r)]
  | p :: rest, sid, r =>
      if p.1 == sid then (sid, r) :: rest else p :: sessionsSet rest sid r

/-- Embedding of `SessionManager.create_session` with the freshly minted
uuid4 identifier passed explicitly. -/
def create_session (s : Sessions) (sid username : String) (now : Nat) :
    Sessions :=
  sessionsSet s sid ⟨now, username⟩

/-- Embedding of `SessionManager.get_username`: `None` for a falsy or
unknown identifier; an entry older than the TTL (strictly) is evicted
and gives `None`; otherwise the `created` field is refreshed to `now`
and the username returned. Returns the result together with the
resulting session table. -/
def get_username (s : Sessions) (ttl now : Nat) (sid : String) :
    Option String × Sessions :=
  if sid == "" then (none, s)
  else
    match sessionsLookup s sid with
    | none => (none, s)
    | some rec =>
        if now - rec.created > ttl then (none, sessionsErase s sid)
        else (some rec.username, sessionsSet s sid ⟨now, rec.username⟩)

/-- Embedding of `SessionManager.delete_session`. -/
def delete_session (s : Sessions) (sid : String) : Sessions :=
  sessionsErase s sid

/-- Embedding of the dependency helper `get_current_user`: read the
`session_id` cookie; a missing or falsy (empty) cookie gives `None`
without touching the table, otherwise resolve it. -/
def get_current_user (s : Sessions) (ttl now : Nat)
    (cookie : Option String) : Option String × Sessions :=
  match cookie with
  | none => (none, s)
  | some sid => if sid == "" then (none, s) else get_username s ttl now sid

/-- Outcome of the `auth_middleware` gate: either the downstream handler
is invoked (`passThrough`), or a `RedirectResponse('/login')` is
returned and the handler is never invoked (`redirectLogin`). -/
inductive GuardOutcome where
  | passThrough
  | redirectLogin
deriving Repr, DecidableEq

/-- Embedding of `auth_middleware`: paths under `/static`, paths in
`WHITE_URLS` and paths under `/main` pass through untouched; otherwise
a falsy resolved user (`if not user:` — absent or empty) redirects to
`/login`, a truthy one passes through (with the table refreshed by the
lookup). -/
def auth_middleware (s : Sessions) (ttl now : Nat) (path : String)
    (cookie : Option String) : GuardOutcome × Sessions :=
  if pyStartswith path "/static" || WHITE_URLS.contains path
      || pyStartswith path "/main" then
    (.passThrough, s)
  else
    let cur := get_current_user s ttl now cookie
    match cur.1 with
    | none => (.redirectLogin, cur.2)
    | some u =>
        if u == "" then (.redirectLogin, cur.2) else (.passThrough, cur.2)

/-- One `set_cookie` call: key, value, and max-age (absent in this
variant, which never passes `max_age`). -/
structure CookieSet where
  key : String
  value : String
  maxAge : Option Nat
deriving Repr, DecidableEq

/-- Observable shape of an HTTP response: status, redirect `Location`,
cookies set and cookies deleted. A rendered template page (an external
collaborator) is a `200` with no location and no cookie changes. -/
structure Response where
  status : Nat
  location : Option String
  cookies : List CookieSet
  deletedCookies : List String
deriving Repr, DecidableEq

/-- A rendered form page (login or registration template, status 200). -/
def formResponse : Response := ⟨200, none, [], []⟩

/-- Embedding of `POST /login`: strip the fields, re-render on an empty
field, on verified credentials mint a session (fresh id `freshSid`),
set the `session_id` cookie (no max-age) and redirect to the welcome
page, otherwise log a warning and re-render. -/
def login (hash : String → String) (users : UserTable) (s : Sessions)
    (logs : LogStore) (username password freshSid : String) (now : Nat) :
    Response × Sessions × LogStore :=
  let username := pyStrip username
  let password := pyStrip password
  if username == "" || password == "" then (formResponse, s, logs)
  else if verify_user hash users username password then
    let s1 := create_session s freshSid username now
    let logs1 := write_log logs now "INFO" "Успешный вход в систему" username ""
    (⟨302, some ("/welcome/" ++ username), [⟨"session_id", freshSid, none⟩], []⟩,
      s1, logs1)
  else
    (formResponse, s, write_log logs now "WARNING" "Неудачная попытка входа" username "")

/-- Embedding of `POST /register`: strip the fields; re-render on an
empty field, on wrong admin provisioning credentials, or on an existing
username; otherwise create the user (role `admin` only when the new
username equals `ADMIN_LOGIN`), mint a session, set the cookie and
redirect. -/
def register (hash : String → String) (users : UserTable) (s : Sessions)
    (logs : LogStore)
    (username password admin_login admin_password freshSid : String)
    (now : Nat) : Response × UserTable × Sessions × LogStore :=
  let username := pyStrip username
  let password := pyStrip password
  if username == "" || password == "" then (formResponse, users, s, logs)
  else if admin_login != ADMIN_LOGIN || admin_password != ADMIN_PASSWORD then
    (formResponse, users, s, logs)
  else if (get_user users username).isSome then (formResponse, users, s, logs)
  else
    let role := if username == ADMIN_LOGIN then "admin" else "user"
    let created := create_user hash users username password role now
    if created.1 then
      let s1 := create_session s freshSid username now
      let logs1 := write_log logs now "INFO" "Успешная регистрация" username ""
      (⟨302, some ("/welcome/" ++ username), [⟨"session_id", freshSid, none⟩], []⟩,
        created.2, s1, logs1)
    else (formResponse, created.2, s, logs)

/-- Embedding of `GET /logout`: when a non-empty `session_id` cookie is
present, resolve it (which may evict an expired entry), delete it, and
log when a username was resolved; always answer with a redirect to
`/login` (Starlette default status 307) that deletes the cookie. -/
def logout (s : Sessions) (logs : LogStore) (ttl now : Nat)
    (cookie : Option String) : Response × Sessions × LogStore :=
  let redirect : Response := ⟨307, some "/login", [], ["session_id"]⟩
  match cookie with
  | none => (redirect, s, logs)
  | some sid =>
    if sid == "" then (redirect, s, logs)
    else
      let res := get_username s ttl now sid
      let s2 := delete_session res.2 sid
      let logs2 :=
        match res.1 with
        | some username =>
            if username == "" then logs
            else write_log logs now "INFO" "Выход из системы" username ""
        | none => logs
      (redirect, s2, logs2)

/-- Failure of the `require_auth` / `require_admin` dependency chain:
an `HTTPException(302, Location=/login)` or an `HTTPException(403)`. -/
inductive AuthFail where
  | redirectLogin
  | forbidden
deriving Repr, DecidableEq

/-- Embedding of the `require_admin` dependency (which runs
`require_auth` first): a falsy resolved user (`if not user:` — absent
or empty) redirects to `/login`; a resolved user missing from the
store or whose role is not `admin` gets 403; otherwise the username is
passed to the handler. -/
def require_admin (users : UserTable) (s : Sessions) (ttl now : Nat)
    (cookie : Option String) : Except AuthFail String × Sessions :=
  let cur := get_current_user s ttl now cookie
  match cur.1 with
  | none => (.error .redirectLogin, cur.2)
  | some u =>
    if u == "" then (.error .redirectLogin, cur.2)
    else
      match get_user users u with
      | none => (.error .forbidden, cur.2)
      | some rec =>
          if rec.role == "admin" then (.ok u, cur.2)
          else (.error .forbidden, cur.2)

/-- Response of `GET /api/users`. -/
inductive UsersApiResp where
  | redirectLogin
  | forbidden
  | ok (records : UserTable)
deriving Repr, DecidableEq

/-- Embedding of `GET /api/users`: behind `require_admin`, return the
full user table as records. -/
def get_users_api (users : UserTable) (s : Sessions) (ttl now : Nat)
    (cookie : Option String) : UsersApiResp × Sessions :=
  let req := require_admin users s ttl now cookie
  match req.1 with
  | .error .redirectLogin => (.redirectLogin, req.2)
  | .error .forbidden => (.forbidden, req.2)
  | .ok _ => (.ok users, req.2)

/-- Response of `GET /api/logs`. -/
inductive LogsApiResp where
  | redirectLogin
  | forbidden
  | ok (records : LogStore)
deriving Repr, DecidableEq

/-- Embedding of `GET /api/logs`: behind `require_admin`, return the
last 100 log records. -/
def get_logs_api (users : UserTable) (logs : LogStore) (s : Sessions)
    (ttl now : Nat) (cookie : Option String) : LogsApiResp × Sessions :=
  let req := require_admin users s ttl now cookie
  match req.1 with
  | .error .redirectLogin => (.redirectLogin, req.2)
  | .error .forbidden => (.forbidden, req.2)
  | .ok _ => (.ok (get_recent_logs logs 100), req.2)

/-- Response of `GET /main/{username}` (the admin panel). -/
inductive AdminPanelResp where
  | redirectLogin
  | forbidden
  | ok (username : String) (records : UserTable) (recent : LogStore)
deriving Repr, DecidableEq

/-- Embedding of `GET /main/{username}`: behind `require_admin`, a 403
when the resolved admin name differs from the path parameter, otherwise
the rendered panel with the user table and the last 20 log records. -/
def admin_panel (users : UserTable) (logs : LogStore) (s : Sessions)
    (ttl now : Nat) (cookie : Option String) (pathUsername : String) :
    AdminPanelResp × Sessions :=
  let req := require_admin users s ttl now cookie
  match req.1 with
  | .error .redirectLogin => (.redirectLogin, req.2)
  | .error .forbidden => (.forbidden, req.2)
  | .ok admin =>
      if admin != pathUsername then (.forbidden, req.2)
      else (.ok pathUsername users (get_recent_logs logs 20), req.2)

/-- An operation on the session table, for reasoning about what can
happen to a session identifier over time. -/
inductive SessionOp where
  | create (sid username : String) (now : Nat)
  | resolve (sid : String) (now : Nat)
  | delete (sid : String)
deriving Repr, DecidableEq

/-- Effect of one `SessionOp` on the session table. -/
def applyOp (ttl : Nat) (s : Sessions) : SessionOp → Sessions
  | .create sid u now => create_session s sid u now
  | .resolve sid now => (get_username s ttl now sid).2
  | .delete sid => delete_session s sid

/-- Effect of a sequence of `SessionOp`s on the session table. -/
def applyOps (ttl : Nat) (s : Sessions) (ops : List SessionOp) : Sessions :=
  ops.foldl (applyOp ttl) s

/-- Arguments of one `POST /register` call. -/
structure RegisterCall where
  username : String
  password : String
  admin_login : String
  admin_password : String
  freshSid : String
  now : Nat
deriving Repr, DecidableEq

/-- The admin record seeded by `_ensure_admin_user` at first run. -/
def seedAdmin (hash : String → String) (now0 : Nat) : UserRec :=
  ⟨ADMIN_LOGIN, hash ADMIN_PASSWORD, "admin", now0⟩

/-- The user table right after first-run bootstrap (empty CSV created,
then the default admin inserted). -/
def initUsers (hash : String → String) (now0 : Nat) : UserTable :=
  ensure_admin_user hash [] now0

/-- The user-table effect of one `POST /register` call. Registration is
the only exposed route that writes the user table. -/
def registerUsers (hash : String → String) (users : UserTable)
    (c : RegisterCall) : UserTable :=
  (register hash users [] [] c.username c.password c.admin_login
    c.admin_password c.freshSid c.now).2.1

/-- The user table reached from `users` by a sequence of registration
calls. -/
def runRegisters (hash : String → String) (users : UserTable)
    (calls : List RegisterCall) : UserTable :=
  calls.foldl (registerUsers hash) users

/-! ## Helper lemmas -/

theorem sessionsLookup_eq_none_iff (s : Sessions) (sid : String) :
    sessionsLookup s sid = none ↔ ∀ p ∈ s, (p.1 == sid) = false := by
  unfold sessionsLookup
  rw [Option.map_eq_none', List.find?_eq_none]
  simp

theorem mem_sessionsSet (s : Sessions) (sid : String) (r : SessionRec)
    (q : String × SessionRec) (hq : q ∈ sessionsSet s sid r) :
    q ∈ s ∨ q = (sid, r) := by
  induction s with
  | nil => simp [sessionsSet] at hq; simp [hq]
  | cons p rest ih =>
    unfold sessionsSet at hq
    by_cases hp : (p.1 == sid) = true
    · rw [if_pos hp] at hq
      rcases List.mem_cons.mp hq with h | h
      · exact Or.inr h
      · exact Or.inl (List.mem_cons_of_mem _ h)
    · rw [if_neg hp] at hq
      rcases List.mem_cons.mp hq with h | h
      · exact Or.inl (h ▸ List.mem_cons_self _ _)
      · rcases ih h with h2 | h2
        · exact Or.inl (List.mem_cons_of_mem _ h2)
        · exact Or.inr h2

theorem sessionsLookup_set_self (s : Sessions) (sid : String)
    (r : SessionRec) : sessionsLookup (sessionsSet s sid r) sid = some r := by
  induction s with
  | nil => simp [sessionsSet, sessionsLookup, List.find?]
  | cons p rest ih =>
    unfold sessionsSet
    by_cases hp : (p.1 == sid) = true
    · rw [if_pos hp]
      simp [sessionsLookup, List.find?]
    · rw [if_neg hp]
      simpa [sessionsLookup, List.find?, hp] using ih

theorem mem_sessionsErase (s : Sessions) (sid : String)
    (q : String × SessionRec) (hq : q ∈ sessionsErase s sid) : q ∈ s :=
  (List.mem_filter.mp hq).1

theorem sessionsLookup_erase_self (s : Sessions) (sid : String) :
    sessionsLookup (sessionsErase s sid) sid = none := by
  rw [sessionsLookup_eq_none_iff]
  intro p hp
  have := (List.mem_filter.mp hp).2
  simpa [bne] using this

theorem sessionsErase_set (s : Sessions) (sid : String) (r : SessionRec) :
    sessionsErase (sessionsSet s sid r) sid = sessionsErase s sid := by
  induction s with
  | nil => simp [sessionsSet, sessionsErase, List.filter, bne]
  | cons p rest ih =>
    unfold sessionsSet
    by_cases hp : (p.1 == sid) = true
    · rw [if_pos hp]
      simp only [sessionsErase, List.filter]
      have h1 : ((sid, r).1 != sid) = false := by simp [bne]
      have h2 : (p.1 != sid) = false := by simp [bne, hp]
      rw [h1, h2]
    · rw [if_neg hp]
      simp only [sessionsErase, List.filter] at ih ⊢
      have h2 : (p.1 != sid) = true := by simp [bne, hp]
      rw [h2, ih]

theorem sessionsErase_erase (s : Sessions) (sid : String) :
    sessionsErase (sessionsErase s sid) sid = sessionsErase s sid := by
  unfold sessionsErase
  rw [List.filter_filter]
  simp

theorem get_username_none_of_absent (s : Sessions) (ttl now : Nat)
    (sid : String) (h : sessionsLookup s sid = none) :
    get_username s ttl now sid = (none, s) := by
  unfold get_username
  by_cases hsid : (sid == "") = true
  · rw [if_pos hsid]
  · rw [if_neg hsid, h]

theorem beq_false_of_lookup_ne (s : Sessions) (a b : String)
    (r : SessionRec) (ha : sessionsLookup s a = some r)
    (hb : sessionsLookup s b = none) : (a == b) = false := by
  rcases Bool.eq_false_or_eq_true (a == b) with h2 | h2
  · rw [eq_of_beq h2, hb] at ha
    exact absurd ha (by simp)
  · exact h2

theorem sessionsLookup_set_absent (s : Sessions) (sid sid2 : String)
    (r : SessionRec) (h : sessionsLookup s sid = none)
    (hne : (sid2 == sid) = false) :
    sessionsLookup (sessionsSet s sid2 r) sid = none := by
  rw [sessionsLookup_eq_none_iff] at h ⊢
  intro p hp
  rcases mem_sessionsSet s sid2 r p hp with hm | hm
  · exact h p hm
  · rw [hm]; exact hne

theorem sessionsLookup_erase_absent (s : Sessions) (sid sid2 : String)
    (h : sessionsLookup s sid = none) :
    sessionsLookup (sessionsErase s sid2) sid = none := by
  rw [sessionsLookup_eq_none_iff] at h ⊢
  exact fun p hp => h p (mem_sessionsErase s sid2 p hp)

theorem absent_applyOp (ttl : Nat) (s : Sessions) (sid : String)
    (op : SessionOp) (h : sessionsLookup s sid = none)
    (hop : ∀ u n, op ≠ .create sid u n) :
    sessionsLookup (applyOp ttl s op) sid = none := by
  cases op with
  | create sid2 u n =>
    have hne : (sid2 == sid) = false := by
      rcases Bool.eq_false_or_eq_true (sid2 == sid) with h2 | h2
      · exact absurd (congrArg (fun x => SessionOp.create x u n)
          (eq_of_beq h2)) (fun hx => hop u n hx)
      · exact h2
    exact sessionsLookup_set_absent s sid sid2 ⟨n, u⟩ h hne
  | resolve sid2 n =>
    simp only [applyOp]
    unfold get_username
    by_cases hsid : (sid2 == "") = true
    · rw [if_pos hsid]; exact h
    · rw [if_neg hsid]
      cases hl : sessionsLookup s sid2 with
      | none => exact h
      | some rec =>
        dsimp only
        by_cases hexp : n - rec.created > ttl
        · rw [if_pos hexp]
          exact sessionsLookup_erase_absent s sid sid2 h
        · rw [if_neg hexp]
          exact sessionsLookup_set_absent s sid sid2 ⟨n, rec.username⟩ h
            (beq_false_of_lookup_ne s sid2 sid rec hl h)
  | delete sid2 =>
    exact sessionsLookup_erase_absent s sid sid2 h

theorem absent_applyOps (ttl : Nat) (s : Sessions) (sid : String)
    (ops : List SessionOp) (h : sessionsLookup s sid = none)
    (hops : ∀ u n, SessionOp.create sid u n ∉ ops) :
    sessionsLookup (applyOps ttl s ops) sid = none := by
  induction ops generalizing s with
  | nil => exact h
  | cons op rest ih =>
    simp only [applyOps, List.foldl] at ih ⊢
    refine ih (applyOp ttl s op) ?_ ?_
    · refine absent_applyOp ttl s sid op h (fun u n hx => ?_)
      exact hops u n (hx ▸ List.mem_cons_self _ _)
    · exact fun u n hx => hops u n (List.mem_cons_of_mem _ hx)

theorem userExists_eq_isSome (users : UserTable) (u : String) :
    userExists users u = (get_user users u).isSome := by
  rw [Bool.eq_iff_iff]
  unfold userExists get_user
  rw [List.any_eq_true, List.find?_isSome]

theorem get_user_append_of_absent (users : UserTable) (r : UserRec)
    (name : String) (h : userExists users name = false) :
    get_user (users ++ [r]) name = get_user [r] name := by
  induction users with
  | nil => rfl
  | cons a t ih =>
    unfold userExists at h
    rw [List.any_cons, Bool.or_eq_false_iff] at h
    unfold get_user at ih ⊢
    rw [List.cons_append, List.find?_cons_of_neg _ (by simp [h.1]),
      ih h.2]

/-- An example digest function, used to instantiate witnesses; every
theorem below is proved for an arbitrary digest function. -/
def idHash : String → String := fun p => p

/-! ## C1: route guard on cookieless requests -/

/-- C1 as stated is false: "/main/alice" is neither in the allow-list
nor under the static prefix, yet `auth_middleware` passes the
cookieless request through to the downstream handler instead of
returning the redirect to the login path. -/
theorem C1_counterexample :
    "/main/alice" ∉ WHITE_URLS ∧
    pyStartswith "/main/alice" "/static" = false ∧
    auth_middleware [] SESSION_TTL 0 "/main/alice" none
      = (.passThrough, []) := by
  refine ⟨by decide, by decide, ?_⟩
  decide

/-- C1 (amended): for every request whose path is not under `/static`,
not in `WHITE_URLS`, and also not under `/main`, carrying no session
cookie, the middleware returns the redirect to the login path and the
downstream handler is never invoked (outcome `redirectLogin`); the
session table is untouched. (Paths under `/main` are instead guarded by
the `require_admin` dependency.) -/
theorem C1_route_guard (s : Sessions) (ttl now : Nat) (path : String)
    (h1 : pyStartswith path "/static" = false)
    (h2 : path ∉ WHITE_URLS)
    (h3 : pyStartswith path "/main" = false) :
    auth_middleware s ttl now path none = (.redirectLogin, s) := by
  have hc : WHITE_URLS.contains path = false := by
    cases hc : WHITE_URLS.contains path with
    | false => rfl
    | true => exact absurd (List.elem_iff.mp hc) h2
  unfold auth_middleware
  rw [h1, hc, h3]
  simp [get_current_user]

/-- Witness for C1: the amended guard theorem at the concrete
cookieless request for `/profile`. -/
theorem C1_route_guard_witness :
    pyStartswith "/profile" "/static" = false ∧
    "/profile" ∉ WHITE_URLS ∧
    pyStartswith "/profile" "/main" = false ∧
    auth_middleware [] SESSION_TTL 0 "/profile" none
      = (.redirectLogin, []) :=
  ⟨by decide, by decide, by decide,
    C1_route_guard [] SESSION_TTL 0 "/profile" (by decide) (by decide)
      (by decide)⟩

/-! ## C2: session TTL -/

/-- C2 as stated is false at the TTL boundary: with `now - created`
exactly equal to the TTL the claim demands absence, but
`get_username` only evicts on a strict `>` comparison and still
returns the username. -/
theorem C2_counterexample :
    SESSION_TTL - (0 : Nat) ≥ SESSION_TTL ∧
    (get_username [("sid", ⟨0, "alice"⟩)] SESSION_TTL SESSION_TTL
      "sid").1 = some "alice" := by
  refine ⟨by decide, ?_⟩
  decide

/-- C2 (amended): for a stored session entry, resolving its non-empty
identifier returns the username whenever `now - created ≤ TTL`; when
`now - created > TTL` (strictly) it returns absent and evicts the
entry; and from the evicted table, after any further operations none of
which creates a session with that identifier, the identifier never
resolves again. -/
theorem C2_session_ttl (s : Sessions) (ttl now : Nat) (sid : String)
    (rec : SessionRec) (hsid : sid ≠ "")
    (hlook : sessionsLookup s sid = some rec) :
    (now - rec.created ≤ ttl →
      (get_username s ttl now sid).1 = some rec.username) ∧
    (now - rec.created > ttl →
      get_username s ttl now sid = (none, sessionsErase s sid) ∧
      ∀ ops : List SessionOp, (∀ u n, SessionOp.create sid u n ∉ ops) →
        ∀ now2 : Nat,
          (get_username (applyOps ttl (sessionsErase s sid) ops) ttl
            now2 sid).1 = none) := by
  have hb : (sid == "") = false := beq_eq_false_iff_ne.mpr hsid
  constructor
  · intro hfresh
    simp only [get_username, hb, Bool.false_eq_true, if_false, hlook]
    rw [if_neg (by omega)]
  · intro hexp
    constructor
    · simp only [get_username, hb, Bool.false_eq_true, if_false, hlook]
      rw [if_pos hexp]
    · intro ops hops now2
      have habs := absent_applyOps ttl (sessionsErase s sid) sid ops
        (sessionsLookup_erase_self s sid) hops
      rw [get_username_none_of_absent _ _ _ _ habs]

/-- Witness for C2: the amended TTL theorem at a concrete table, both
below the boundary (resolves) and above it (evicts and stays dead after
an unrelated create). -/
theorem C2_session_ttl_witness :
    (get_username [("sid", ⟨0, "alice"⟩)] 10 9 "sid").1 = some "alice" ∧
    get_username [("sid", ⟨0, "alice"⟩)] 10 11 "sid"
      = (none, sessionsErase [("sid", ⟨0, "alice"⟩)] "sid") ∧
    (get_username (applyOps 10 (sessionsErase [("sid", ⟨0, "alice"⟩)]
        "sid") [SessionOp.create "other" "bob" 3]) 10 99 "sid").1
      = none := by
  have h9 := C2_session_ttl [("sid", ⟨0, "alice"⟩)] 10 9 "sid"
    ⟨0, "alice"⟩ (by decide) (by decide)
  have h11 := C2_session_ttl [("sid", ⟨0, "alice"⟩)] 10 11 "sid"
    ⟨0, "alice"⟩ (by decide) (by decide)
  have hops : ∀ u n, SessionOp.create "sid" u n
      ∉ [SessionOp.create "other" "bob" 3] := by
    intro u n hmem
    rw [List.mem_singleton] at hmem
    injection hmem with hx
    exact absurd hx (by decide)
  exact ⟨h9.1 (by decide), (h11.2 (by decide)).1,
    (h11.2 (by decide)).2 [SessionOp.create "other" "bob" 3] hops 99⟩

/-! ## C3: duplicate registration rejected -/

/-- C3 (confirmed): when some record with the given username is already
in the table, `create_user` returns `false` for every supplied password
and leaves the table exactly as it was, so its cardinality and every
existing record are unchanged. -/
theorem C3_duplicate_create_rejected (hash : String → String)
    (users : UserTable) (r : UserRec) (hr : r ∈ users)
    (password role : String) (now : Nat) :
    create_user hash users r.username password role now = (false, users) := by
  have hex : userExists users r.username = true := by
    unfold userExists
    rw [List.any_eq_true]
    exact ⟨r, hr, by simp⟩
  unfold create_user
  rw [hex]
  simp

/-- Witness for C3: a second create for "bob" fails and keeps the
one-record table intact. -/
theorem C3_duplicate_create_rejected_witness :
    (⟨"bob", "h", "user", 0⟩ : UserRec) ∈
      [(⟨"bob", "h", "user", 0⟩ : UserRec)] ∧
    create_user idHash [⟨"bob", "h", "user", 0⟩] "bob" "pw2" "user" 7
      = (false, [⟨"bob", "h", "user", 0⟩]) :=
  ⟨by decide, C3_duplicate_create_rejected idHash
    [⟨"bob", "h", "user", 0⟩] ⟨"bob", "h", "user", 0⟩ (by decide)
    "pw2" "user" 7⟩

/-! ## C4: single-admin invariant -/

theorem registerUsers_preserves_admin (hash : String → String)
    (users : UserTable) (c : RegisterCall) (a : UserRec)
    (ha : a.username = ADMIN_LOGIN)
    (hI : users.filter (fun r => r.role == "admin") = [a]) :
    (registerUsers hash users c).filter (fun r => r.role == "admin")
      = [a] := by
  have hamem : a ∈ users := by
    have hm : a ∈ users.filter (fun r => r.role == "admin") := by
      rw [hI]; exact List.mem_singleton_self a
    exact (List.mem_filter.mp hm).1
  simp only [registerUsers, register]
  by_cases h1 : (pyStrip c.username == "" || pyStrip c.password == "")
      = true
  · rw [if_pos h1]; exact hI
  rw [if_neg h1]
  by_cases h2 : (c.admin_login != ADMIN_LOGIN
      || c.admin_password != ADMIN_PASSWORD) = true
  · rw [if_pos h2]; exact hI
  rw [if_neg h2]
  by_cases h3 : (get_user users (pyStrip c.username)).isSome = true
  · rw [if_pos h3]; exact hI
  rw [if_neg h3]
  have hne : userExists users (pyStrip c.username) = false := by
    rw [userExists_eq_isSome]
    exact Bool.eq_false_iff.mpr h3
  have hnadmin : (pyStrip c.username == ADMIN_LOGIN) = false := by
    cases hb : (pyStrip c.username == ADMIN_LOGIN) with
    | false => rfl
    | true =>
      exfalso
      have hu : pyStrip c.username = ADMIN_LOGIN := eq_of_beq hb
      have hexadm : userExists users (pyStrip c.username) = true := by
        unfold userExists
        rw [List.any_eq_true]
        exact ⟨a, hamem, by rw [ha, hu]; exact beq_self_eq_true _⟩
      rw [hexadm] at hne
      exact absurd hne (by decide)
  simp only [hnadmin, Bool.false_eq_true, if_false, create_user, hne]
  rw [if_pos trivial]
  dsimp only
  rw [List.filter_append, hI]
  simp

/-- C4 (confirmed): in every user table reachable from the bootstrapped
initial state by any sequence of registration calls (registration is
the only exposed user-creating route), the rows with role `admin` are
exactly the single admin record seeded at first run with the fixed
well-known credential. -/
theorem C4_single_admin (hash : String → String) (now0 : Nat)
    (calls : List RegisterCall) :
    (runRegisters hash (initUsers hash now0) calls).filter
      (fun r => r.role == "admin") = [seedAdmin hash now0] := by
  have hinit : (initUsers hash now0).filter (fun r => r.role == "admin")
      = [seedAdmin hash now0] := by
    simp only [initUsers, ensure_admin_user]
    rw [if_neg (by decide)]
    simp [seedAdmin, List.filter]
  have hstep : ∀ (cs : List RegisterCall) (users : UserTable),
      users.filter (fun r => r.role == "admin") = [seedAdmin hash now0] →
      (runRegisters hash users cs).filter (fun r => r.role == "admin")
        = [seedAdmin hash now0] := by
    intro cs
    induction cs with
    | nil => intro users hI; exact hI
    | cons c rest ih =>
      intro users hI
      simp only [runRegisters, List.foldl] at ih ⊢
      exact ih _ (registerUsers_preserves_admin hash users c _ rfl hI)
  exact hstep calls _ hinit

/-! ## C5: verify is lookup plus digest comparison -/

/-- C5 (confirmed): `verify_user` is `get_user` followed by digest
comparison. An absent username gives `false`; a present record is
compared by `stored digest == hash(supplied password)`; a user created
with some password verifies with that original password, and fails for
every password whose hash differs from the stored digest. -/
theorem C5_verify (hash : String → String) (users : UserTable) :
    (∀ username password, get_user users username = none →
      verify_user hash users username password = false) ∧
    (∀ username password r, get_user users username = some r →
      verify_user hash users username password
        = (r.password == hash password)) ∧
    (∀ username password now, userExists users username = false →
      verify_user hash
        (create_user hash users username password "user" now).2
        username password = true) ∧
    (∀ username password other now, userExists users username = false →
      hash other ≠ hash password →
      verify_user hash
        (create_user hash users username password "user" now).2
        username other = false) := by
  have hget : ∀ username password now,
      userExists users username = false →
      get_user (create_user hash users username password "user" now).2
        username = some ⟨username, hash password, "user", now⟩ := by
    intro username password now hne
    unfold create_user
    rw [hne, if_neg (by decide)]
    dsimp only
    rw [get_user_append_of_absent users _ username hne]
    simp [get_user]
  refine ⟨?_, ?_, ?_, ?_⟩
  · intro username password h
    unfold verify_user
    rw [h]
  · intro username password r h
    unfold verify_user
    rw [h]
  · intro username password now hne
    unfold verify_user
    rw [hget username password now hne]
    exact beq_self_eq_true _
  · intro username password other now hne hdiff
    unfold verify_user
    rw [hget username password now hne]
    exact beq_eq_false_iff_ne.mpr (Ne.symm hdiff)

/-- Witness for C5: with the identity digest, an absent user fails,
a fresh user verifies with the original password and fails with a
different one. -/
theorem C5_verify_witness :
    verify_user idHash [] "ghost" "pw" = false ∧
    verify_user idHash
      (create_user idHash [] "alice" "secret" "user" 3).2 "alice"
      "secret" = true ∧
    verify_user idHash
      (create_user idHash [] "alice" "secret" "user" 3).2 "alice"
      "wrong" = false := by
  have h := C5_verify idHash []
  exact ⟨h.1 "ghost" "pw" (by decide),
    h.2.2.1 "alice" "secret" 3 (by decide),
    h.2.2.2 "alice" "secret" "wrong" 3 (by decide) (by decide)⟩

/-! ## C8: sliding expiry refresh -/

/-- C8 (confirmed): successfully resolving a stored, non-expired
session returns its unchanged username and refreshes the stored
creation/last-touch timestamp to `now` (sliding expiry): afterwards the
identifier maps to the same username with timestamp `now`. -/
theorem C8_sliding_refresh (s : Sessions) (ttl now : Nat) (sid : String)
    (rec : SessionRec) (hsid : sid ≠ "")
    (hlook : sessionsLookup s sid = some rec)
    (hfresh : now - rec.created ≤ ttl) :
    get_username s ttl now sid
      = (some rec.username, sessionsSet s sid ⟨now, rec.username⟩) ∧
    sessionsLookup (get_username s ttl now sid).2 sid
      = some ⟨now, rec.username⟩ := by
  have hb : (sid == "") = false := beq_eq_false_iff_ne.mpr hsid
  have h1 : get_username s ttl now sid
      = (some rec.username, sessionsSet s sid ⟨now, rec.username⟩) := by
    simp only [get_username, hb, Bool.false_eq_true, if_false, hlook]
    rw [if_neg (by omega)]
  refine ⟨h1, ?_⟩
  rw [h1]
  exact sessionsLookup_set_self s sid _

/-- Witness for C8: resolving a five-second-old session with a
ten-second TTL returns the username and re-stamps the entry. -/
theorem C8_sliding_refresh_witness :
    get_username [("sid", ⟨2, "alice"⟩)] 10 7 "sid"
      = (some "alice", sessionsSet [("sid", ⟨2, "alice"⟩)] "sid"
          ⟨7, "alice"⟩) ∧
    sessionsLookup (get_username [("sid", ⟨2, "alice"⟩)] 10 7 "sid").2
      "sid" = some ⟨7, "alice"⟩ :=
  C8_sliding_refresh [("sid", ⟨2, "alice"⟩)] 10 7 "sid" ⟨2, "alice"⟩
    (by decide) (by decide) (by decide)

/-! ## C9: recent logs are a chronological suffix -/

/-- C9 (confirmed): `get_recent_logs logs n` is a suffix of the
append-ordered log (so the records stay in chronological order, not
reversed), consists of the last `min n (length logs)` records, and is
the whole log when fewer than `n` records exist. -/
theorem C9_recent_logs (logs : LogStore) (n : Nat) :
    List.IsSuffix (get_recent_logs logs n) logs ∧
    (get_recent_logs logs n).length = min n logs.length ∧
    (logs.length ≤ n → get_recent_logs logs n = logs) := by
  refine ⟨List.drop_suffix _ _, ?_, ?_⟩
  · rw [get_recent_logs, List.length_drop]
    omega
  · intro h
    rw [get_recent_logs, Nat.sub_eq_zero_of_le h, List.drop_zero]

/-- Witness for C9: a two-record log with limit 5 is returned whole and
in order. -/
theorem C9_recent_logs_witness :
    List.length
        [(⟨1, "INFO", "a", "", ""⟩ : LogEntry), ⟨2, "INFO", "b", "", ""⟩]
      ≤ 5 ∧
    get_recent_logs
        [⟨1, "INFO", "a", "", ""⟩, ⟨2, "INFO", "b", "", ""⟩] 5
      = [⟨1, "INFO", "a", "", ""⟩, ⟨2, "INFO", "b", "", ""⟩] :=
  ⟨by decide,
    (C9_recent_logs [⟨1, "INFO", "a", "", ""⟩, ⟨2, "INFO", "b", "", ""⟩]
      5).2.2 (by decide)⟩

/-! ## C6: session cookie attributes -/

/-- C6 as stated is false: a successful login sets the `session_id`
cookie with the token as value but with NO max-age (`set_cookie` is
called without `max_age`), while the claim demands a max-age equal to
the session TTL in seconds. -/
theorem C6_counterexample :
    (login idHash [⟨"alice", "pw", "user", 0⟩] [] [] "alice" "pw" "sid1"
      5).1.cookies = [⟨"session_id", "sid1", none⟩] ∧
    (none : Option Nat) ≠ some SESSION_TTL := by
  refine ⟨?_, by decide⟩
  decide

/-- C6 (amended): every response that sets the session cookie
(successful login and successful registration) sets the cookie named
`session_id` with the opaque session token as value and WITHOUT a
max-age (a browser-session cookie): `set_cookie` is never given
`max_age`. -/
theorem C6_session_cookie (hash : String → String) (users : UserTable)
    (s : Sessions) (logs : LogStore)
    (username password admin_login admin_password freshSid : String)
    (now : Nat) :
    (pyStrip username ≠ "" → pyStrip password ≠ "" →
      verify_user hash users (pyStrip username) (pyStrip password)
        = true →
      (login hash users s logs username password freshSid now).1.cookies
        = [⟨"session_id", freshSid, none⟩]) ∧
    (pyStrip username ≠ "" → pyStrip password ≠ "" →
      admin_login = ADMIN_LOGIN → admin_password = ADMIN_PASSWORD →
      get_user users (pyStrip username) = none →
      (register hash users s logs username password admin_login
          admin_password freshSid now).1.cookies
        = [⟨"session_id", freshSid, none⟩]) := by
  constructor
  · intro h1 h2 hv
    have hb1 : (pyStrip username == "") = false :=
      beq_eq_false_iff_ne.mpr h1
    have hb2 : (pyStrip password == "") = false :=
      beq_eq_false_iff_ne.mpr h2
    simp only [login, hb1, hb2, Bool.or_self, Bool.false_eq_true,
      if_false, hv]
    rfl
  · intro h1 h2 ha hp hg
    have hb1 : (pyStrip username == "") = false :=
      beq_eq_false_iff_ne.mpr h1
    have hb2 : (pyStrip password == "") = false :=
      beq_eq_false_iff_ne.mpr h2
    have hne : userExists users (pyStrip username) = false := by
      rw [userExists_eq_isSome, hg]
      rfl
    subst ha
    subst hp
    simp only [register, hb1, hb2, Bool.or_self, Bool.false_eq_true,
      if_false, bne_self_eq_false, hg, Option.isSome_none, create_user,
      hne]
    rfl

/-- Witness for C6: concrete successful login and registration, both
setting the bare session cookie. -/
theorem C6_session_cookie_witness :
    (login idHash [⟨"alice", "pw", "user", 0⟩] [] [] "alice" "pw" "sid1"
      5).1.cookies = [⟨"session_id", "sid1", none⟩] ∧
    (register idHash [] [] [] "carol" "pw" "admin" "12345" "sid2"
      9).1.cookies = [⟨"session_id", "sid2", none⟩] := by
  have h := C6_session_cookie idHash [⟨"alice", "pw", "user", 0⟩] [] []
    "alice" "pw" "x" "y" "sid1" 5
  have h2 := C6_session_cookie idHash [] [] [] "carol" "pw" "admin"
    "12345" "sid2" 9
  exact ⟨h.1 (by decide) (by decide) (by decide),
    h2.2 (by decide) (by decide) rfl rfl (by decide)⟩

/-! ## C7: role gate on admin-only routes -/

theorem require_admin_eq (users : UserTable) (s : Sessions)
    (ttl now : Nat) (cookie : Option String) (u : String)
    (hauth : (get_current_user s ttl now cookie).1 = some u)
    (hne : u ≠ "") :
    require_admin users s ttl now cookie
      = (match get_user users u with
         | none => .error .forbidden
         | some rec =>
             if rec.role == "admin" then .ok u else .error .forbidden,
         (get_current_user s ttl now cookie).2) := by
  simp only [require_admin]
  rw [hauth]
  dsimp only
  rw [beq_eq_false_iff_ne.mpr hne, if_neg (by decide)]
  cases hg : get_user users u with
  | none => rfl
  | some rec =>
    dsimp only
    by_cases hr : (rec.role == "admin") = true
    · rw [if_pos hr, if_pos hr]
    · rw [if_neg hr, if_neg hr]

/-- C7 as stated is false: a session resolving to the admin user (whose
stored role is `admin`) requesting the admin panel for a different path
username receives 403, not 200. -/
theorem C7_counterexample :
    (get_current_user [("sid", ⟨0, "admin"⟩)] SESSION_TTL 0
      (some "sid")).1 = some "admin" ∧
    get_user [⟨"admin", "h", "admin", 0⟩] "admin"
      = some ⟨"admin", "h", "admin", 0⟩ ∧
    (admin_panel [⟨"admin", "h", "admin", 0⟩] [] [("sid", ⟨0, "admin"⟩)]
      SESSION_TTL 0 (some "sid") "bob").1 = .forbidden := by
  refine ⟨by decide, by decide, ?_⟩
  decide

/-- C7 (amended): for every authenticated request (the session resolves
to a non-empty user `u`, i.e. `require_auth` passes): when `u` is
absent from the user store or has a role other than `admin`, all three
admin-only routes answer 403; when `u` has role `admin`, `/api/users`
answers 200 with the user records, `/api/logs` answers 200 with the
last 100 log records, and the admin panel answers 200 with its payload
only for the path username equal to `u`, and 403 for every other path
username. -/
theorem C7_role_gate (users : UserTable) (logs : LogStore) (s : Sessions)
    (ttl now : Nat) (cookie : Option String) (u : String)
    (hauth : (get_current_user s ttl now cookie).1 = some u)
    (huser : u ≠ "") :
    ((∀ r, get_user users u = some r → r.role ≠ "admin") →
      (get_users_api users s ttl now cookie).1 = .forbidden ∧
      (get_logs_api users logs s ttl now cookie).1 = .forbidden ∧
      ∀ pathU, (admin_panel users logs s ttl now cookie pathU).1
        = .forbidden) ∧
    (∀ r, get_user users u = some r → r.role = "admin" →
      (get_users_api users s ttl now cookie).1 = .ok users ∧
      (get_logs_api users logs s ttl now cookie).1
        = .ok (get_recent_logs logs 100) ∧
      (admin_panel users logs s ttl now cookie u).1
        = .ok u users (get_recent_logs logs 20) ∧
      ∀ pathU, pathU ≠ u →
        (admin_panel users logs s ttl now cookie pathU).1
          = .forbidden) := by
  have hra := require_admin_eq users s ttl now cookie u hauth huser
  constructor
  · intro hnot
    have hreq : require_admin users s ttl now cookie
        = (.error .forbidden, (get_current_user s ttl now cookie).2) := by
      rw [hra]
      cases hg : get_user users u with
      | none => rfl
      | some rec =>
        dsimp only
        rw [beq_eq_false_iff_ne.mpr (hnot rec hg), if_neg (by decide)]
    refine ⟨?_, ?_, fun pathU => ?_⟩ <;>
      simp only [get_users_api, get_logs_api, admin_panel, hreq]
  · intro rec hg hrole
    have htr : ("admin" == "admin") = true := by decide
    have hreq : require_admin users s ttl now cookie
        = (.ok u, (get_current_user s ttl now cookie).2) := by
      rw [hra, hg]
      dsimp only
      rw [hrole, if_pos htr]
    refine ⟨?_, ?_, ?_, ?_⟩
    · simp only [get_users_api, hreq]
    · simp only [get_logs_api, hreq]
    · simp only [admin_panel, hreq, bne_self_eq_false,
        Bool.false_eq_true, if_false]
    · intro pathU hpu
      have hb : (u != pathU) = true :=
        bne_iff_ne.mpr (fun h => hpu h.symm)
      simp only [admin_panel, hreq, hb, if_true]

/-- Witness for C7: the resolved admin gets the records from
`/api/users` and the panel at the matching path username. -/
theorem C7_role_gate_witness :
    (get_users_api [⟨"admin", "h", "admin", 0⟩] [("sid", ⟨0, "admin"⟩)]
      SESSION_TTL 0 (some "sid")).1 = .ok [⟨"admin", "h", "admin", 0⟩] ∧
    (admin_panel [⟨"admin", "h", "admin", 0⟩] [] [("sid", ⟨0, "admin"⟩)]
      SESSION_TTL 0 (some "sid") "admin").1
      = .ok "admin" [⟨"admin", "h", "admin", 0⟩] [] := by
  have h := C7_role_gate [⟨"admin", "h", "admin", 0⟩] []
    [("sid", ⟨0, "admin"⟩)] SESSION_TTL 0 (some "sid") "admin"
    (by decide) (by decide)
  have h2 := h.2 ⟨"admin", "h", "admin", 0⟩ (by decide) rfl
  exact ⟨h2.1, h2.2.2.1⟩

/-! ## C10: logout is total and idempotent -/

theorem delete_after_resolve (s : Sessions) (ttl now : Nat)
    (sid : String) :
    delete_session (get_username s ttl now sid).2 sid
      = sessionsErase s sid := by
  unfold get_username delete_session
  by_cases hb : (sid == "") = true
  · rw [if_pos hb]
  · rw [if_neg hb]
    cases hl : sessionsLookup s sid with
    | none => rfl
    | some rec =>
      dsimp only
      by_cases hexp : now - rec.created > ttl
      · rw [if_pos hexp]
        exact sessionsErase_erase s sid
      · rw [if_neg hexp]
        exact sessionsErase_set s sid _

/-- C10 as stated is false in one detail: presenting an EXPIRED session
identifier, the resolve step inside logout returns absent (so no
"resolved session" exists), yet the session table still changes — the
expired entry is evicted. -/
theorem C10_counterexample :
    (get_username [("sid", ⟨0, "alice"⟩)] SESSION_TTL (SESSION_TTL + 1)
      "sid").1 = none ∧
    (logout [("sid", ⟨0, "alice"⟩)] [] SESSION_TTL (SESSION_TTL + 1)
      (some "sid")).2.1 ≠ [("sid", ⟨0, "alice"⟩)] := by
  refine ⟨?_, ?_⟩ <;> decide

/-- C10 (amended): a GET to `/logout` never fails: for every session
table and request it returns the redirect to the login page (status
307, location `/login`) with the `session_id` cookie cleared; the
session table is unchanged when no (or an empty) cookie is presented,
and otherwise equals the original table with every entry for the
presented identifier removed — whether that session was valid, expired
(evicted during resolution), or unknown; deleting a session identifier
is idempotent. -/
theorem C10_logout (s : Sessions) (logs : LogStore) (ttl now : Nat)
    (cookie : Option String) :
    ((logout s logs ttl now cookie).1
      = ⟨307, some "/login", [], ["session_id"]⟩) ∧
    (cookie = none → (logout s logs ttl now cookie).2.1 = s) ∧
    (cookie = some "" → (logout s logs ttl now cookie).2.1 = s) ∧
    (∀ sid, cookie = some sid → sid ≠ "" →
      (logout s logs ttl now cookie).2.1 = sessionsErase s sid) ∧
    (∀ sid, delete_session (delete_session s sid) sid
      = delete_session s sid) := by
  refine ⟨?_, ?_, ?_, ?_, fun sid => sessionsErase_erase s sid⟩
  · unfold logout
    cases cookie with
    | none => rfl
    | some sid =>
      dsimp only
      by_cases hb : (sid == "") = true
      · rw [if_pos hb]
      · rw [if_neg hb]
  · intro h
    subst h
    rfl
  · intro h
    subst h
    unfold logout
    dsimp only
    rw [if_pos (by decide)]
  · intro sid h hne
    subst h
    have hb : (sid == "") = false := beq_eq_false_iff_ne.mpr hne
    unfold logout
    dsimp only
    rw [hb, if_neg (by decide)]
    exact delete_after_resolve s ttl now sid

/-- Witness for C10: logout with a valid cookie redirects, clears the
cookie and leaves the table without the session; a cookieless logout
leaves the table untouched. -/
theorem C10_logout_witness :
    (logout [("sid", ⟨0, "alice"⟩)] [] 10 5 (some "sid")).1
      = ⟨307, some "/login", [], ["session_id"]⟩ ∧
    (logout [("sid", ⟨0, "alice"⟩)] [] 10 5 (some "sid")).2.1
      = sessionsErase [("sid", ⟨0, "alice"⟩)] "sid" ∧
    (logout [("sid", ⟨0, "alice"⟩)] [] 10 5 none).2.1
      = [("sid", ⟨0, "alice"⟩)] := by
  have h1 := C10_logout [("sid", ⟨0, "alice"⟩)] [] 10 5 (some "sid")
  have h2 := C10_logout [("sid", ⟨0, "alice"⟩)] [] 10 5 none
  exact ⟨h1.1, h1.2.2.2.1 "sid" rfl (by decide), h2.2.1 rfl⟩

end FastAPIApp
